import Mathlib

/-!
Verification of the KNXnet/IP framing and dispatch layer (`knx/proto/proto.go`).

The layer wraps a self-describing payload in a fixed 6-byte header
(`[6][16][serviceID:2][totalLen:2][body...]`, multi-byte fields big-endian)
and, on the inbound side, validates the header, dispatches on the 16-bit
service identifier over a closed set of 11 message kinds, and delegates body
parsing to the matched kind.

Bytes are modelled as natural numbers (values below 256 on real wire data;
nothing below depends on the bound).  The message-kind collaborators, the
low-level decode helper `util.UnpackSome` and the write helper
`encoding.WriteSome` are external to the packaged source and are modelled
from the specification where noted.
-/

namespace KnxProto

/-- The eleven supported message kinds (the variants behind the `serviceUnpackable`
dispatch switch in `Unpack`). -/
inductive ServiceKind
  | connReq
  | connRes
  | connStateReq
  | connStateRes
  | discReq
  | discRes
  | tunnelReq
  | tunnelRes
  | routingInd
  | routingLost
  | routingBusy
deriving DecidableEq, Repr, Fintype

/-- `ConnReqService`: service identifier of a connection request. -/
def ConnReqService : Nat := 0x0205

/-- `ConnResService`: service identifier of a connection response. -/
def ConnResService : Nat := 0x0206

/-- `ConnStateReqService`: service identifier of a connection-state request. -/
def ConnStateReqService : Nat := 0x0207

/-- `ConnStateResService`: service identifier of a connection-state response. -/
def ConnStateResService : Nat := 0x0208

/-- `DiscReqService`: service identifier of a disconnect request. -/
def DiscReqService : Nat := 0x0209

/-- `DiscResService`: service identifier of a disconnect response. -/
def DiscResService : Nat := 0x020a

/-- `TunnelReqService`: service identifier of a tunneling request. -/
def TunnelReqService : Nat := 0x0420

/-- `TunnelResService`: service identifier of a tunneling response. -/
def TunnelResService : Nat := 0x0421

/-- `RoutingIndService`: service identifier of a routing indication. -/
def RoutingIndService : Nat := 0x0530

/-- `RoutingLostService`: service identifier of a routing-lost message. -/
def RoutingLostService : Nat := 0x0531

/-- `RoutingBusyService`: service identifier of a routing-busy message. -/
def RoutingBusyService : Nat := 0x0532

/-- The `ServiceID` each kind reports through its `Service()` method. -/
def serviceIDOf : ServiceKind → Nat
  | .connReq => ConnReqService
  | .connRes => ConnResService
  | .connStateReq => ConnStateReqService
  | .connStateRes => ConnStateResService
  | .discReq => DiscReqService
  | .discRes => DiscResService
  | .tunnelReq => TunnelReqService
  | .tunnelRes => TunnelResService
  | .routingInd => RoutingIndService
  | .routingLost => RoutingLostService
  | .routingBusy => RoutingBusyService

/-- Errors surfaced by this layer.  `ErrHeaderLength`, `ErrHeaderVersion` and
`ErrUnknownService` are the three named error values of `proto.go`;
`ErrShortInput` stands for the error the low-level decode helper returns when
the input ends inside the header; `collabError` stands for any opaque error
value produced by a collaborator (a payload serializer or a body parser),
identified by a code so that propagation "unchanged" is expressible. -/
inductive ProtoError
  | ErrHeaderLength
  | ErrHeaderVersion
  | ErrUnknownService
  | ErrShortInput
  | collabError (code : Nat)
deriving DecidableEq, Repr

/-- The dispatch switch of `Unpack` (lines 108–144 of `proto.go`): which message
kind a service identifier selects, `none` on the `default` branch. -/
def kindOfServiceID (id : Nat) : Option ServiceKind :=
  if id = ConnReqService then some .connReq
  else if id = ConnResService then some .connRes
  else if id = ConnStateReqService then some .connStateReq
  else if id = ConnStateResService then some .connStateRes
  else if id = DiscReqService then some .discReq
  else if id = DiscResService then some .discRes
  else if id = TunnelReqService then some .tunnelReq
  else if id = TunnelResService then some .tunnelRes
  else if id = RoutingIndService then some .routingInd
  else if id = RoutingLostService then some .routingLost
  else if id = RoutingBusyService then some .routingBusy
  else none

/-- Modelled from the spec: the low-level decode helper `util.UnpackSome`
applied to the four header targets (`uint8`, `uint8`, `uint16`, `uint16`),
which is outside the packaged source ("low-level primitive encode/decode
helpers" are out of scope per §1).  Per §4.3 it parses the 6 header bytes in
order — two single bytes, then two big-endian 16-bit integers — returning the
count of bytes consumed together with the parsed fields, and failing with a
short-input error when the input ends before a field is complete, the count
then reflecting the header bytes examined (the fully parsed fields). -/
def unpackSomeHeader (data : List Nat) :
    Nat × Except ProtoError (Nat × Nat × Nat × Nat) :=
  match data with
  | [] => (0, .error .ErrShortInput)
  | [_] => (1, .error .ErrShortInput)
  | [_, _] => (2, .error .ErrShortInput)
  | [_, _, _] => (2, .error .ErrShortInput)
  | [_, _, _, _] => (4, .error .ErrShortInput)
  | [_, _, _, _, _] => (4, .error .ErrShortInput)
  | b0 :: b1 :: b2 :: b3 :: b4 :: b5 :: _ =>
      (6, .ok (b0, b1, b2 * 256 + b3, b4 * 256 + b5))

/-- A model of the external collaborators: the payload values with their
`Service()` method and `WriteTo` serialization (the `ServiceWriterTo`
capability), and, per message kind, the body parser invoked by the dispatch
(the `serviceUnpackable` capability: bytes consumed plus result). -/
structure Model (Payload : Type) where
  serviceOf : Payload → Nat
  writeTo : Payload → Except ProtoError (List Nat)
  bodyUnpack : ServiceKind → List Nat → Nat × Except ProtoError Payload

/-- The polymorphic value `Unpack` stores into the caller's slot: the
dispatched kind together with the parsed payload. -/
abbrev SrvVal (α : Type) := ServiceKind × α

/-- `Pack` (lines 43–54 of `proto.go`): serialize the payload into an
intermediate buffer; on failure return `(no bytes, 0, the payload's error)`;
otherwise emit `6`, `16`, the service identifier and the total length
`body length + 6` (both as big-endian 16-bit values, hence reduced mod 2^16,
matching the `uint16` casts), then the buffered body.  The sink is modelled
as the list of bytes written; the byte emission mirrors
`encoding.WriteSome`, modelled from the spec (§4.1/§4.2 byte layout), which
is outside the packaged source.  Result: bytes written to the sink, their
count, and the error. -/
def Pack {α : Type} (M : Model α) (x : α) : List Nat × Nat × Option ProtoError :=
  match M.writeTo x with
  | .error e => ([], 0, some e)
  | .ok body =>
      let sid := M.serviceOf x % 65536
      let totalLen := (body.length + 6) % 65536
      let out := 6 :: 16 :: sid / 256 :: sid % 256 ::
        totalLen / 256 :: totalLen % 256 :: body
      (out, out.length, none)

/-- `Unpack` (lines 90–154 of `proto.go`): parse the header fields; check the
header-length and version constants; dispatch on the service identifier; on a
known kind run its body parser on the remaining bytes.  The Go out-parameter
`srv` is modelled by passing the slot's prior contents in and returning its
new contents: the slot is assigned only under `err == nil`.  Result: bytes
consumed, error, and the slot's contents after the call. -/
def Unpack {α : Type} (M : Model α) (data : List Nat) (srv : Option (SrvVal α)) :
    Nat × Option ProtoError × Option (SrvVal α) :=
  match unpackSomeHeader data with
  | (n, .error e) => (n, some e, srv)
  | (n, .ok (headerLen, version, srvID, _totalLen)) =>
      if headerLen ≠ 6 then (n, some .ErrHeaderLength, srv)
      else if version ≠ 16 then (n, some .ErrHeaderVersion, srv)
      else
        match kindOfServiceID srvID with
        | none => (n, some .ErrUnknownService, srv)
        | some k =>
            match M.bodyUnpack k (data.drop n) with
            | (m, .ok v) => (n + m, none, some (k, v))
            | (m, .error e) => (n + m, some e, srv)

/-- The total length a packed packet declares in header bytes 4–5
(big-endian). -/
def declaredTotalLen (packet : List Nat) : Nat :=
  packet.getD 4 0 * 256 + packet.getD 5 0

/-- A concrete collaborator model used to evaluate the theorems: payloads are
raw byte lists, serialization is the identity, every body parser consumes the
whole remaining input. -/
def trivModel : Model (List Nat) where
  serviceOf := fun _ => TunnelReqService
  writeTo := fun x => .ok x
  bodyUnpack := fun _ d => (d.length, .ok d)

/-- A concrete collaborator model whose serialization and body parsing fail. -/
def errModel : Model Unit where
  serviceOf := fun _ => ConnReqService
  writeTo := fun _ => .error (.collabError 3)
  bodyUnpack := fun _ _ => (0, .error (.collabError 3))

/-- A concrete collaborator model with payloads of arbitrary body length:
payload `n` serializes to `n` zero bytes. -/
def natModel : Model Nat where
  serviceOf := fun _ => ConnReqService
  writeTo := fun n => .ok (List.replicate n 0)
  bodyUnpack := fun _ d => (d.length, .ok d.length)

theorem kindOfServiceID_serviceIDOf (k : ServiceKind) :
    kindOfServiceID (serviceIDOf k) = some k := by
  cases k <;> rfl

theorem serviceIDOf_lt (k : ServiceKind) : serviceIDOf k < 65536 := by
  cases k <;> decide

/-- Claim C1 is false as stated: on the buffer `[5, 16, 2, 5, 0, 0]` — whose
byte 0 is `5 ≠ 6` — `Unpack` does fail with the header-length error, but the
consumed-byte count it returns is `6`, not at most `1` (at most up through
byte 0): all four header fields are parsed before the header-length check
runs. -/
theorem unpack_badHeaderLen_consumes_six :
    (Unpack trivModel [5, 16, 2, 5, 0, 0] none).1 = 6 ∧
    (Unpack trivModel [5, 16, 2, 5, 0, 0] none).2.1 = some .ErrHeaderLength ∧
    ¬ (Unpack trivModel [5, 16, 2, 5, 0, 0] none).1 ≤ 1 := by
  decide

/-- Claim C1, amended: for every input buffer holding at least the 6 header
bytes whose byte 0 is not 6, `Unpack` fails with the header-length error and
returns a consumed count of exactly 6 — all six header bytes are examined
before the check — leaving the output slot unchanged.  (A buffer shorter
than 6 bytes fails earlier, inside header parsing, with the short-input
error.) -/
theorem unpack_badHeaderLen {α : Type} (M : Model α) (b0 b1 b2 b3 b4 b5 : Nat)
    (rest : List Nat) (s : Option (SrvVal α)) (h : b0 ≠ 6) :
    Unpack M (b0 :: b1 :: b2 :: b3 :: b4 :: b5 :: rest) s =
      (6, some .ErrHeaderLength, s) := by
  simp [Unpack, unpackSomeHeader, h]

/-- Witness for the amended C1 at the concrete buffer `[5, 16, 2, 5, 0, 0]`. -/
theorem unpack_badHeaderLen_witness :
    (5 : Nat) ≠ 6 ∧
    Unpack trivModel [5, 16, 2, 5, 0, 0] none =
      (6, some .ErrHeaderLength, none) :=
  ⟨by decide, unpack_badHeaderLen trivModel 5 16 2 5 0 0 [] none (by decide)⟩

/-- Claim C3: when the payload's own serialization fails, `Pack` writes no
bytes at all to the sink and returns 0 bytes written together with the
payload's error, propagated unchanged. -/
theorem pack_writeTo_fails {α : Type} (M : Model α) (x : α) (e : ProtoError)
    (hw : M.writeTo x = .error e) :
    Pack M x = ([], 0, some e) := by
  simp [Pack, hw]

/-- Witness for C3 on the model whose serialization fails with error code 3. -/
theorem pack_writeTo_fails_witness :
    errModel.writeTo () = .error (.collabError 3) ∧
    Pack errModel () = ([], 0, some (.collabError 3)) :=
  ⟨rfl, pack_writeTo_fails errModel () (.collabError 3) rfl⟩

/-- Claim C4: when the payload serializes to a body of `n` bytes, `Pack`
emits to the sink, in order, the byte 6, the byte 16, the payload's service
identifier as a big-endian 16-bit integer, the total length `n + 6` as a
big-endian 16-bit integer, then the `n` body bytes, reporting `n + 6` bytes
written and no error. -/
theorem pack_wire_layout {α : Type} (M : Model α) (x : α) (body : List Nat)
    (hw : M.writeTo x = .ok body) :
    Pack M x =
      (6 :: 16 :: (M.serviceOf x % 65536) / 256 :: (M.serviceOf x % 65536) % 256 ::
        ((body.length + 6) % 65536) / 256 :: ((body.length + 6) % 65536) % 256 :: body,
       body.length + 6, none) := by
  simp [Pack, hw]

/-- Witness for C4: packing the two-byte payload `[7, 8]` in the concrete
model (service identifier `0x0420`). -/
theorem pack_wire_layout_witness :
    trivModel.writeTo [7, 8] = .ok [7, 8] ∧
    Pack trivModel [7, 8] = ([6, 16, 4, 32, 0, 8, 7, 8], 8, none) :=
  ⟨rfl, by
    have h := pack_wire_layout trivModel [7, 8] [7, 8] rfl
    simpa using h⟩

/-- Claim C6: a buffer with a well-formed header (byte 0 = 6, byte 1 = 16)
whose service identifier (bytes 2–3, big-endian) is none of the 11 known
values fails with the unknown-service-identifier error and returns exactly 6
bytes consumed, leaving the output slot unchanged. -/
theorem unpack_unknown_service {α : Type} (M : Model α) (b2 b3 b4 b5 : Nat)
    (rest : List Nat) (s : Option (SrvVal α))
    (h : ∀ k : ServiceKind, b2 * 256 + b3 ≠ serviceIDOf k) :
    Unpack M (6 :: 16 :: b2 :: b3 :: b4 :: b5 :: rest) s =
      (6, some .ErrUnknownService, s) := by
  have h1 : b2 * 256 + b3 ≠ ConnReqService := h .connReq
  have h2 : b2 * 256 + b3 ≠ ConnResService := h .connRes
  have h3 : b2 * 256 + b3 ≠ ConnStateReqService := h .connStateReq
  have h4 : b2 * 256 + b3 ≠ ConnStateResService := h .connStateRes
  have h5 : b2 * 256 + b3 ≠ DiscReqService := h .discReq
  have h6 : b2 * 256 + b3 ≠ DiscResService := h .discRes
  have h7 : b2 * 256 + b3 ≠ TunnelReqService := h .tunnelReq
  have h8 : b2 * 256 + b3 ≠ TunnelResService := h .tunnelRes
  have h9 : b2 * 256 + b3 ≠ RoutingIndService := h .routingInd
  have h10 : b2 * 256 + b3 ≠ RoutingLostService := h .routingLost
  have h11 : b2 * 256 + b3 ≠ RoutingBusyService := h .routingBusy
  have hk : kindOfServiceID (b2 * 256 + b3) = none := by
    unfold kindOfServiceID
    rw [if_neg h1, if_neg h2, if_neg h3, if_neg h4, if_neg h5, if_neg h6,
      if_neg h7, if_neg h8, if_neg h9, if_neg h10, if_neg h11]
  simp [Unpack, unpackSomeHeader, hk]

/-- Witness for C6 at identifier 0 (bytes 2–3 both zero). -/
theorem unpack_unknown_service_witness :
    (∀ k : ServiceKind, 0 * 256 + 0 ≠ serviceIDOf k) ∧
    Unpack trivModel [6, 16, 0, 0, 0, 0] none =
      (6, some .ErrUnknownService, none) :=
  ⟨by decide, unpack_unknown_service trivModel 0 0 0 0 [] none (by decide)⟩

theorem unpack_known_kind_ok {α : Type} (M : Model α) (k : ServiceKind) (b4 b5 : Nat)
    (rest : List Nat) (s : Option (SrvVal α)) (v : α) (m : Nat)
    (hu : M.bodyUnpack k rest = (m, .ok v)) :
    Unpack M (6 :: 16 :: serviceIDOf k / 256 :: serviceIDOf k % 256 ::
        b4 :: b5 :: rest) s =
      (6 + m, none, some (k, v)) := by
  have hid : serviceIDOf k / 256 * 256 + serviceIDOf k % 256 = serviceIDOf k := by
    omega
  simp [Unpack, unpackSomeHeader, hid, kindOfServiceID_serviceIDOf, hu]

/-- Claim C5: for each of the 11 kinds, `Unpack` on a buffer with a valid
header carrying that kind's identifier in bytes 2–3 dispatches to that kind;
when the kind's body parser succeeds on the remaining bytes, consuming `m` of
them and yielding `v`, `Unpack` stores that kind's instance into the output
slot and returns `6 + m` with no error. -/
theorem unpack_dispatch {α : Type} (M : Model α) (k : ServiceKind) (b4 b5 : Nat)
    (rest : List Nat) (s : Option (SrvVal α)) (v : α) (m : Nat)
    (hu : M.bodyUnpack k rest = (m, .ok v)) :
    Unpack M (6 :: 16 :: serviceIDOf k / 256 :: serviceIDOf k % 256 ::
        b4 :: b5 :: rest) s =
      (6 + m, none, some (k, v)) :=
  unpack_known_kind_ok M k b4 b5 rest s v m hu

/-- Witness for C5: dispatching the routing-busy identifier `0x0532`
(bytes `5, 50`) on a two-byte body. -/
theorem unpack_dispatch_witness :
    trivModel.bodyUnpack .routingBusy [9, 9] = (2, .ok [9, 9]) ∧
    Unpack trivModel [6, 16, 5, 50, 0, 0, 9, 9] none =
      (6 + 2, none, some (.routingBusy, [9, 9])) :=
  ⟨rfl, unpack_dispatch trivModel .routingBusy 0 0 [9, 9] none [9, 9] 2 rfl⟩

/-- Claim C7: on a valid header with a known service identifier, when the
kind's body parser fails with error `e` after consuming `m` bytes, `Unpack`
propagates `e` unchanged, returns `6 + m` bytes consumed, and leaves the
output slot unchanged. -/
theorem unpack_body_error {α : Type} (M : Model α) (k : ServiceKind) (b4 b5 : Nat)
    (rest : List Nat) (s : Option (SrvVal α)) (e : ProtoError) (m : Nat)
    (hu : M.bodyUnpack k rest = (m, .error e)) :
    Unpack M (6 :: 16 :: serviceIDOf k / 256 :: serviceIDOf k % 256 ::
        b4 :: b5 :: rest) s =
      (6 + m, some e, s) := by
  have hid : serviceIDOf k / 256 * 256 + serviceIDOf k % 256 = serviceIDOf k := by
    omega
  simp [Unpack, unpackSomeHeader, hid, kindOfServiceID_serviceIDOf, hu]

/-- Witness for C7: a connection-request packet (identifier `0x0205`, bytes
`2, 5`) whose body parser fails with error code 3 after 0 bytes. -/
theorem unpack_body_error_witness :
    errModel.bodyUnpack .connReq [] = (0, .error (.collabError 3)) ∧
    Unpack errModel [6, 16, 2, 5, 0, 0] none =
      (6 + 0, some (.collabError 3), none) :=
  ⟨rfl, unpack_body_error errModel .connReq 0 0 [] none (.collabError 3) 0 rfl⟩

/-- Claim C2: for every kind `k` and payload `x` of that kind satisfying the
collaborator contract — `x` reports `k`'s service identifier, serializes
successfully to `body`, and `k`'s parser recovers `x` from `body` — unpacking
the bytes `Pack` produced succeeds and stores a payload equal to `x` under
the same kind (hence an identical ServiceID), consuming the header plus the
body parser's count. -/
theorem unpack_pack_roundTrip {α : Type} (M : Model α) (k : ServiceKind) (x : α)
    (body : List Nat) (m : Nat) (s : Option (SrvVal α))
    (hsid : M.serviceOf x = serviceIDOf k)
    (hw : M.writeTo x = .ok body)
    (hu : M.bodyUnpack k body = (m, .ok x)) :
    Unpack M (Pack M x).1 s = (6 + m, none, some (k, x)) := by
  have hlt : serviceIDOf k < 65536 := serviceIDOf_lt k
  have hmod : M.serviceOf x % 65536 = serviceIDOf k := by
    rw [hsid]
    omega
  have hpack : (Pack M x).1 =
      6 :: 16 :: serviceIDOf k / 256 :: serviceIDOf k % 256 ::
        ((body.length + 6) % 65536) / 256 :: ((body.length + 6) % 65536) % 256 ::
        body := by
    simp [Pack, hw, hmod]
  rw [hpack]
  exact unpack_known_kind_ok M k _ _ body s x m hu

/-- Witness for C2: round trip of the three-byte payload `[1, 2, 3]` under
the tunneling-request kind in the concrete model. -/
theorem unpack_pack_roundTrip_witness :
    trivModel.serviceOf [1, 2, 3] = serviceIDOf .tunnelReq ∧
    trivModel.writeTo [1, 2, 3] = .ok [1, 2, 3] ∧
    trivModel.bodyUnpack .tunnelReq [1, 2, 3] = (3, .ok [1, 2, 3]) ∧
    Unpack trivModel (Pack trivModel [1, 2, 3]).1 none =
      (6 + 3, none, some (.tunnelReq, [1, 2, 3])) :=
  ⟨rfl, rfl, rfl,
    unpack_pack_roundTrip trivModel .tunnelReq [1, 2, 3] [1, 2, 3] 3 none
      rfl rfl rfl⟩

/-- Claim C8: `Unpack` never looks at the header's total-length field.  Any
two input buffers of the same length that agree everywhere except possibly at
bytes 4–5 (same first four bytes, same bytes from position 6 on) produce the
same consumed count, the same error, and the same slot contents. -/
theorem unpack_ignores_totalLen {α : Type} (M : Model α) (d1 d2 : List Nat)
    (s : Option (SrvVal α))
    (hTake : d1.take 4 = d2.take 4) (hDrop : d1.drop 6 = d2.drop 6)
    (hLen : d1.length = d2.length) :
    Unpack M d1 s = Unpack M d2 s := by
  rcases d1 with _ | ⟨a1, _ | ⟨b1, _ | ⟨c1, _ | ⟨e1, _ | ⟨f1, _ | ⟨g1, r1⟩⟩⟩⟩⟩⟩ <;>
    rcases d2 with _ | ⟨a2, _ | ⟨b2, _ | ⟨c2, _ | ⟨e2, _ | ⟨f2, _ | ⟨g2, r2⟩⟩⟩⟩⟩⟩ <;>
    simp_all [Unpack, unpackSomeHeader]

/-- Witness for C8: two buffers differing only in bytes 4–5 unpack
identically. -/
theorem unpack_ignores_totalLen_witness :
    Unpack trivModel [6, 16, 4, 32, 9, 9, 1] none =
      Unpack trivModel [6, 16, 4, 32, 0, 0, 1] none :=
  unpack_ignores_totalLen trivModel [6, 16, 4, 32, 9, 9, 1]
    [6, 16, 4, 32, 0, 0, 1] none rfl rfl rfl

/-- Claim C9: whenever `Unpack` returns an error — a short-input failure from
header parsing, a header-length or header-version mismatch, an unknown
service identifier, or a body-parse failure — the caller-supplied output slot
is returned unchanged; it is written only when no error is returned. -/
theorem unpack_slot_unchanged_on_error {α : Type} (M : Model α) (data : List Nat)
    (s : Option (SrvVal α)) (e : ProtoError)
    (h : (Unpack M data s).2.1 = some e) :
    (Unpack M data s).2.2 = s := by
  unfold Unpack at h ⊢
  rcases hh : unpackSomeHeader data with ⟨n, r⟩
  rw [hh] at h
  rcases r with re | ⟨headerLen, version, srvID, totalLen⟩
  · simp
  · by_cases h6 : headerLen ≠ 6
    · simp [h6]
    · by_cases h16 : version ≠ 16
      · simp [h6, h16]
      · rcases hk : kindOfServiceID srvID with _ | k
        · simp [h6, h16, hk]
        · rcases hb : M.bodyUnpack k (data.drop n) with ⟨m, rb⟩
          rcases rb with rbe | rbv
          · simp [h6, h16, hk, hb]
          · simp [h6, h16, hk, hb] at h

/-- Witness for C9: the empty buffer fails with the short-input error and the
slot keeps its prior contents. -/
theorem unpack_slot_unchanged_on_error_witness :
    (Unpack trivModel [] (some (.connReq, [7]))).2.1 = some .ErrShortInput ∧
    (Unpack trivModel [] (some (.connReq, [7]))).2.2 = some (.connReq, [7]) :=
  ⟨rfl, unpack_slot_unchanged_on_error trivModel []
    (some (.connReq, [7])) .ErrShortInput rfl⟩

/-- Claim C10: the total-length field `Pack` emits is `(body length + 6)`
reduced modulo 2^16; consequently, for every payload whose body is 65530
bytes or longer the declared total length in header bytes 4–5 differs from
the number of bytes actually written. -/
theorem pack_totalLen_wraps {α : Type} (M : Model α) (x : α) (body : List Nat)
    (hw : M.writeTo x = .ok body) (hlen : 65530 ≤ body.length) :
    declaredTotalLen (Pack M x).1 = (body.length + 6) % 65536 ∧
    declaredTotalLen (Pack M x).1 ≠ (Pack M x).2.1 := by
  have hfst : (Pack M x).1 =
      6 :: 16 :: (M.serviceOf x % 65536) / 256 :: (M.serviceOf x % 65536) % 256 ::
        ((body.length + 6) % 65536) / 256 :: ((body.length + 6) % 65536) % 256 ::
        body := by
    simp [Pack, hw]
  have hcnt : (Pack M x).2.1 = body.length + 6 := by
    simp [Pack, hw]
  rw [hfst, hcnt]
  unfold declaredTotalLen
  simp only [List.getD_cons_succ, List.getD_cons_zero]
  omega

/-- Witness for C10: a payload with a 65530-byte body declares total length
0 while 65536 bytes go out on the wire. -/
theorem pack_totalLen_wraps_witness :
    65530 ≤ (List.replicate 65530 (0 : Nat)).length ∧
    declaredTotalLen (Pack natModel 65530).1 =
      ((List.replicate 65530 (0 : Nat)).length + 6) % 65536 ∧
    declaredTotalLen (Pack natModel 65530).1 ≠ (Pack natModel 65530).2.1 :=
  ⟨(List.length_replicate _ _).ge,
    pack_totalLen_wraps natModel 65530 (List.replicate 65530 0) rfl
      (List.length_replicate _ _).ge⟩

end KnxProto
